import Mathlib

/-
Shallow embedding of `src/conservation_project.py` (repository
Midorichie/env-blockchain), the request-construction and validation layer of
the `AdvancedConservationTracker` class.

Modelling conventions:
- Python `float` percentages / `Decimal` currency amounts are modelled as ℚ
  (all concrete values appearing in the claims are exactly representable as
  binary floats or decimals, so exact rational arithmetic coincides with the
  source's arithmetic on them).
- Python `int(x)` (truncation toward zero) is `pyInt`; Python `round(x)`
  (round half to even) is `pyRound`.
- Exceptions are modelled with `Except TrackerError`.  The `try/except/raise`
  blocks of the source log and re-raise, which on the error path is the
  identity, so the embedding of each facade operation propagates stage errors
  unchanged.
- External collaborators (validator registry, blockchain client's
  `execute_contract_call` and `get_project_details`, and the approval
  collector) are parameters of the operations.
- Each facade operation returns `List TxParams × Except TrackerError Dict`:
  the first component is the trace of calls made to the gateway's
  `execute_contract_call` during the run (used to state the "no gateway call
  on local validation failure" properties), the second the Python return
  value or raised exception.
-/

namespace EnvBlockchain

/-- Project lifecycle states, from the `ProjectStatus` enum of the source. -/
inductive ProjectStatus
  | PROPOSED
  | VOTING
  | APPROVED
  | FUNDING
  | ACTIVE
  | COMPLETED
  | CLOSED
deriving DecidableEq, Repr

/-- The `Milestone` dataclass.  Timestamps are modelled as ℕ. -/
structure Milestone where
  description : String
  funding_percentage : ℚ
  is_completed : Bool := false
  completion_date : Option ℕ := none

/-- The `ImpactMetric` dataclass. -/
structure ImpactMetric where
  metric_name : String
  value : ℚ
  validator_approvals : List String := []

/-- The `ConservationProject` dataclass. -/
structure ConservationProject where
  name : String
  description : String
  target_funding : ℚ
  current_funding : ℚ := 0
  status : ProjectStatus := ProjectStatus.PROPOSED
  owner : String := ""
  validators : List String := []
  voting_period : Option (ℕ × ℕ) := none
  milestones : List Milestone := []
  impact_metrics : List ImpactMetric := []

/-- Wire-level values placed in a contract call's positional argument list. -/
inductive Value
  | str (s : String)
  | int (n : ℤ)
  | list (l : List Value)
  | dict (kvs : List (String × Value))

/-- A contract-call response record (the shape is opaque to the core). -/
abbrev Dict := List (String × Value)

/-- The `tx_params` record handed to `blockchain_client.execute_contract_call`. -/
structure TxParams where
  method : String
  args : List Value

/-- Error taxonomy of the spec (section 7).  The source raises `ValueError`
with distinguishing messages for the first two; `ValidationLookupFailure` is
part of the taxonomy but, as claimed, never produced by the validator gate. -/
inductive TrackerError
  | InsufficientValidators
  | InvalidMilestoneAllocation
  | ValidationLookupFailure
  | GatewayError (msg : String)
deriving DecidableEq, Repr

/-- The record returned by `validator_registry.get_validator_details`. -/
structure ValidatorInfo where
  reputation_score : ℚ

/-- Python `int(q)`: truncation toward zero. -/
def pyInt (q : ℚ) : ℤ := if 0 ≤ q then ⌊q⌋ else ⌈q⌉

/-- Python `round(q)` to an integer: round half to even (banker's rounding). -/
def pyRound (q : ℚ) : ℤ :=
  if q - ⌊q⌋ < 1/2 then ⌊q⌋
  else if 1/2 < q - ⌊q⌋ then ⌊q⌋ + 1
  else if ⌊q⌋ % 2 = 0 then ⌊q⌋ else ⌊q⌋ + 1

/-- The per-candidate test of `_validate_validators` (line 113 of the
source): keep the candidate iff the registry lookup is non-null and its
`reputation_score` is at least 75. -/
def qualifies (registry : String → Option ValidatorInfo) (v : String) : Bool :=
  match registry v with
  | some validator_info => decide (75 ≤ validator_info.reputation_score)
  | none => false

/-- The `_validate_validators` method (source lines 100-119): filter the
proposed candidates through `qualifies` (the append-in-loop of the source
preserves input order, i.e. is `List.filter`) and fail with
`InsufficientValidators` when fewer than 2 survive. -/
def validate_validators (registry : String → Option ValidatorInfo)
    (proposed_validators : List String) : Except TrackerError (List String) :=
  let verified_validators := proposed_validators.filter (qualifies registry)
  if verified_validators.length < 2 then
    Except.error TrackerError.InsufficientValidators
  else
    Except.ok verified_validators

/-- The `tx_params` built by `create_conservation_project` (source lines
78-86): method `create-conservation-project`, positional arguments
[name, description, `int(target_funding * 100)`, validated validators]. -/
def createTx (project : ConservationProject) (validated_validators : List String) :
    TxParams :=
  { method := "create-conservation-project"
    args := [Value.str project.name,
             Value.str project.description,
             Value.int (pyInt (project.target_funding * 100)),
             Value.list (validated_validators.map Value.str)] }

/-- The `create_conservation_project` facade operation (source lines 61-98):
validator gate, then build `tx_params`, then execute the gateway call.  The
`except` block logs and re-raises, so stage errors propagate unchanged.  The
first component of the result is the trace of gateway `execute_contract_call`
invocations. -/
def create_conservation_project (registry : String → Option ValidatorInfo)
    (execute_contract_call : TxParams → Except TrackerError Dict)
    (project : ConservationProject) (proposed_validators : List String) :
    List TxParams × Except TrackerError Dict :=
  match validate_validators registry proposed_validators with
  | Except.error e => ([], Except.error e)
  | Except.ok validated_validators =>
    let tx_params := createTx project validated_validators
    ([tx_params], execute_contract_call tx_params)

/-- The `milestone_data` list comprehension of `add_project_milestones`
(source lines 140-146): each milestone becomes a dict with its description
and `int(funding_percentage)`. -/
def milestone_data (milestones : List Milestone) : List Value :=
  milestones.map (fun m => Value.dict
    [("description", Value.str m.description),
     ("funding_percentage", Value.int (pyInt m.funding_percentage))])

/-- The `tx_params` built by `add_project_milestones` (source lines 148-151). -/
def milestonesTx (project_id : ℤ) (milestones : List Milestone) : TxParams :=
  { method := "add-project-milestones"
    args := [Value.int project_id, Value.list (milestone_data milestones)] }

/-- The `add_project_milestones` facade operation (source lines 121-160):
check that the `funding_percentage` values sum to exactly 100 (exact
comparison `total_percentage != 100`, no tolerance), fail with
`InvalidMilestoneAllocation` otherwise, then build and execute the call. -/
def add_project_milestones
    (execute_contract_call : TxParams → Except TrackerError Dict)
    (project_id : ℤ) (milestones : List Milestone) :
    List TxParams × Except TrackerError Dict :=
  let total_percentage := (milestones.map Milestone.funding_percentage).sum
  if total_percentage ≠ 100 then
    ([], Except.error TrackerError.InvalidMilestoneAllocation)
  else
    let tx_params := milestonesTx project_id milestones
    ([tx_params], execute_contract_call tx_params)

/-- The record returned by `blockchain_client.get_project_details`; the
source reads `project_details.get('validators', [])`, so the validator set is
optional with default `[]`. -/
structure ProjectDetails where
  validators : Option (List String) := none

/-- The dict built for one metric inside `validate_project_impact` (source
lines 189-193): metric name, `int(value * 100)`, and the approvals collected
for it from the project's validator set. -/
def validated_metric
    (collect_validator_approvals : List String → ℤ → ImpactMetric → List String)
    (project_validators : List String) (project_id : ℤ) (metric : ImpactMetric) :
    Value :=
  Value.dict
    [("metric_name", Value.str metric.metric_name),
     ("value", Value.int (pyInt (metric.value * 100))),
     ("validator_approvals", Value.list
       ((collect_validator_approvals project_validators project_id metric).map
         Value.str))]

/-- The `tx_params` built by `validate_project_impact` (source lines
195-198). -/
def impactTx
    (collect_validator_approvals : List String → ℤ → ImpactMetric → List String)
    (project_validators : List String) (project_id : ℤ)
    (impact_metrics : List ImpactMetric) : TxParams :=
  { method := "add-impact-metrics"
    args := [Value.int project_id,
             Value.list (impact_metrics.map
               (validated_metric collect_validator_approvals project_validators
                 project_id))] }

/-- The `validate_project_impact` facade operation (source lines 162-202):
fetch the project details from the gateway, take its validator set (default
`[]`), collect approvals for each metric in input order, then build and
execute the `add-impact-metrics` call.  The source file ends mid-method at
line 202; `Modelled from the spec:` the missing tail (`return response` and
the log-and-re-raise `except` block) returns the gateway response and
propagates stage errors unchanged, per spec section 4.3. -/
def validate_project_impact
    (get_project_details : ℤ → Except TrackerError ProjectDetails)
    (collect_validator_approvals : List String → ℤ → ImpactMetric → List String)
    (execute_contract_call : TxParams → Except TrackerError Dict)
    (project_id : ℤ) (impact_metrics : List ImpactMetric) :
    List TxParams × Except TrackerError Dict :=
  match get_project_details project_id with
  | Except.error e => ([], Except.error e)
  | Except.ok project_details =>
    let project_validators := project_details.validators.getD []
    let tx_params := impactTx collect_validator_approvals project_validators
      project_id impact_metrics
    ([tx_params], execute_contract_call tx_params)

/-! Concrete collaborators and inputs used by the scenario theorems and the
witnesses. -/

/-- A gateway whose calls all succeed with an empty response record. -/
def exec0 : TxParams → Except TrackerError Dict := fun _ => Except.ok []

/-- A gateway whose calls all fail with a transport error. -/
def execFail : TxParams → Except TrackerError Dict :=
  fun _ => Except.error (TrackerError.GatewayError "transport failure")

/-- A registry that knows nobody (every lookup returns null). -/
def registry0 : String → Option ValidatorInfo := fun _ => none

/-- A registry in which exactly `validator1` and `validator2` exist, both
with reputation score 80. -/
def reg80 : String → Option ValidatorInfo := fun v =>
  if v = "validator1" ∨ v = "validator2" then some ⟨80⟩ else none

/-- The project of the spec's creation scenario. -/
def projectAmazon : ConservationProject :=
  { name := "Amazon Rainforest Restoration"
    description := "Restore degraded rainforest"
    target_funding := 500000 }

/-- A project whose target funding 19.995 has a fractional half-cent. -/
def project19995 : ConservationProject :=
  { name := "P"
    description := "D"
    target_funding := 19995/1000 }

/-- Concrete milestone with 40 percent funding. -/
def msA : Milestone := { description := "A", funding_percentage := 40 }

/-- Milestone with 60 percent funding. -/
def msB : Milestone := { description := "B", funding_percentage := 60 }

/-- Milestone with 50 percent funding (for the failing 40+50 scenario). -/
def msB50 : Milestone := { description := "B", funding_percentage := 50 }

/-- Milestone with funding percentage 33.5. -/
def msP1 : Milestone := { description := "phase1", funding_percentage := 67/2 }

/-- Second milestone with funding percentage 33.5. -/
def msP2 : Milestone := { description := "phase2", funding_percentage := 67/2 }

/-- Milestone with funding percentage 33. -/
def msP3 : Milestone := { description := "phase3", funding_percentage := 33 }

/-- Project details holding two validators, for the impact scenario. -/
def details2 : ProjectDetails :=
  { validators := some ["validator1", "validator2"] }

/-- A gateway read that always returns `details2`. -/
def getDetails2 : ℤ → Except TrackerError ProjectDetails :=
  fun _ => Except.ok details2

/-- An approval collector in which every validator approves every metric. -/
def collectAll : List String → ℤ → ImpactMetric → List String :=
  fun validators _ _ => validators

/-- A concrete impact metric with value 12.34. -/
def metricTrees : ImpactMetric :=
  { metric_name := "trees_planted", value := 1234/100 }

/-- A concrete impact metric with value 12.346, whose scaled value 1234.6
separates truncation (1234) from rounding (1235). -/
def metricCarbon : ImpactMetric :=
  { metric_name := "carbon_offset", value := 12346/1000 }

/-- Helper: when at least 2 candidates qualify, the gate succeeds and returns
the filtered list. -/
theorem validate_validators_ok (registry : String → Option ValidatorInfo)
    (proposed : List String)
    (h : 2 ≤ (proposed.filter (qualifies registry)).length) :
    validate_validators registry proposed =
      Except.ok (proposed.filter (qualifies registry)) := by
  have hnot : ¬ (proposed.filter (qualifies registry)).length < 2 := by omega
  simp [validate_validators, hnot]

/-- Helper: when fewer than 2 candidates qualify, the gate fails with
`InsufficientValidators`. -/
theorem validate_validators_err (registry : String → Option ValidatorInfo)
    (proposed : List String)
    (h : (proposed.filter (qualifies registry)).length < 2) :
    validate_validators registry proposed =
      Except.error TrackerError.InsufficientValidators := by
  simp [validate_validators, h]

/-- Helper: the two-validator scenario registry qualifies exactly the two
named validators, so filtering keeps both. -/
theorem reg80_filter :
    (["validator1", "validator2"] : List String).filter (qualifies reg80) =
      ["validator1", "validator2"] := by
  norm_num [List.filter, qualifies, reg80]

/-- C1: for every candidate list in which at least 2 candidates qualify
(registry lookup non-null with reputation score ≥ 75), the validator gate
returns exactly the qualifying candidates: a sublist of the input (hence
preserving the input's relative order) whose members are precisely the input
members that qualify, and no others. -/
theorem C1_validate_returns_qualifying_subsequence
    (registry : String → Option ValidatorInfo) (proposed : List String)
    (h : 2 ≤ (proposed.filter (qualifies registry)).length) :
    validate_validators registry proposed =
      Except.ok (proposed.filter (qualifies registry)) ∧
    (proposed.filter (qualifies registry)).Sublist proposed ∧
    (∀ v : String, v ∈ proposed.filter (qualifies registry) ↔
      v ∈ proposed ∧ qualifies registry v = true) := by
  refine ⟨?_, List.filter_sublist _, fun v => List.mem_filter⟩
  have hnot : ¬ (proposed.filter (qualifies registry)).length < 2 := by omega
  simp [validate_validators, hnot]

/-- Witness for C1 at the concrete two-validator scenario. -/
theorem C1_witness :
    2 ≤ ((["validator1", "validator2"] : List String).filter
      (qualifies reg80)).length ∧
    validate_validators reg80 ["validator1", "validator2"] =
      Except.ok ((["validator1", "validator2"] : List String).filter
        (qualifies reg80)) := by
  have h : 2 ≤ ((["validator1", "validator2"] : List String).filter
      (qualifies reg80)).length := by rw [reg80_filter]; decide
  exact ⟨h, (C1_validate_returns_qualifying_subsequence reg80
    ["validator1", "validator2"] h).1⟩

/-- C3: for every candidate list in which fewer than 2 candidates pass the
reputation filter (including the empty list), the validator gate fails with
`InsufficientValidators` and `create_conservation_project` raises that error
without invoking the gateway (empty call trace). -/
theorem C3_insufficient_validators_no_call
    (registry : String → Option ValidatorInfo)
    (execute_contract_call : TxParams → Except TrackerError Dict)
    (project : ConservationProject) (proposed : List String)
    (h : (proposed.filter (qualifies registry)).length < 2) :
    validate_validators registry proposed =
      Except.error TrackerError.InsufficientValidators ∧
    create_conservation_project registry execute_contract_call project
        proposed =
      ([], Except.error TrackerError.InsufficientValidators) := by
  have hv : validate_validators registry proposed =
      Except.error TrackerError.InsufficientValidators :=
    validate_validators_err registry proposed h
  exact ⟨hv, by simp [create_conservation_project, hv]⟩

/-- Witness for C3 at the empty candidate list. -/
theorem C3_witness :
    (([] : List String).filter (qualifies registry0)).length < 2 ∧
    create_conservation_project registry0 execFail projectAmazon [] =
      ([], Except.error TrackerError.InsufficientValidators) := by
  have h : (([] : List String).filter (qualifies registry0)).length < 2 := by
    simp
  exact ⟨h, (C3_insufficient_validators_no_call registry0 execFail
    projectAmazon [] h).2⟩

/-- C10: a candidate whose registry lookup returns null is treated exactly
like one whose lookup succeeds with a low reputation score: replacing the
null lookup by a sub-threshold record changes nothing; the gate's only
possible error is `InsufficientValidators` (it never produces
`ValidationLookupFailure`); and the null-lookup candidate is silently
excluded from any successful output. -/
theorem C10_null_lookup_like_low_reputation
    (registry : String → Option ValidatorInfo) (v : String)
    (info : ValidatorInfo) (proposed : List String)
    (hnull : registry v = none) (hlow : info.reputation_score < 75) :
    validate_validators registry proposed =
      validate_validators
        (fun w => if w = v then some info else registry w) proposed ∧
    (∀ e, validate_validators registry proposed = Except.error e →
      e = TrackerError.InsufficientValidators) ∧
    (∀ out, validate_validators registry proposed = Except.ok out →
      v ∉ out) := by
  refine ⟨?_, ?_, ?_⟩
  · have hq : ∀ w, qualifies registry w =
        qualifies (fun w => if w = v then some info else registry w) w := by
      intro w
      by_cases hw : w = v
      · subst hw
        simp [qualifies, hnull, decide_eq_false (not_le.mpr hlow)]
      · simp [qualifies, hw]
    unfold validate_validators
    rw [List.filter_congr (fun w _ => hq w)]
  · intro e he
    by_cases hlen : (proposed.filter (qualifies registry)).length < 2
    · rw [validate_validators_err registry proposed hlen] at he
      exact (Except.error.inj he).symm
    · rw [validate_validators_ok registry proposed (by omega)] at he
      exact absurd he (by simp)
  · intro out hout hmem
    by_cases hlen : (proposed.filter (qualifies registry)).length < 2
    · rw [validate_validators_err registry proposed hlen] at hout
      exact absurd hout (by simp)
    · rw [validate_validators_ok registry proposed (by omega)] at hout
      have : v ∈ proposed.filter (qualifies registry) :=
        (Except.ok.inj hout) ▸ hmem
      have := (List.mem_filter.mp this).2
      simp [qualifies, hnull] at this

/-- Witness for C10: candidate `ghost` has a null lookup in `reg80`. -/
theorem C10_witness :
    reg80 "ghost" = none ∧
    (⟨(50 : ℚ)⟩ : ValidatorInfo).reputation_score < 75 ∧
    (∀ out, validate_validators reg80 ["validator1", "ghost", "validator2"] =
      Except.ok out → "ghost" ∉ out) := by
  have hnull : reg80 "ghost" = none := by
    have hne : ¬("ghost" = "validator1" ∨ "ghost" = "validator2") := by simp
    simp [reg80, hne]
  have hlow : (⟨(50 : ℚ)⟩ : ValidatorInfo).reputation_score < 75 := by
    norm_num
  exact ⟨hnull, hlow, (C10_null_lookup_like_low_reputation reg80 "ghost"
    ⟨50⟩ ["validator1", "ghost", "validator2"] hnull hlow).2.2⟩

/-! Milestone and currency-conversion claims. -/

/-- Helper: Python `int(33.5)` is 33. -/
theorem pyInt_67_half : pyInt ((67 : ℚ)/2) = 33 := by norm_num [pyInt]

/-- Helper: Python `int(33.0)` is 33. -/
theorem pyInt_33 : pyInt (33 : ℚ) = 33 := by norm_num [pyInt]

/-- Helper: Python `int(500000.00 * 100)` is 50000000. -/
theorem pyInt_50000000 : pyInt ((500000 : ℚ) * 100) = 50000000 := by
  norm_num [pyInt]

/-- Helper: Python `int(19.995 * 100) = int(1999.5)` is 1999 (truncation). -/
theorem pyInt_19995 : pyInt ((19995 : ℚ)/1000 * 100) = 1999 := by
  norm_num [pyInt]

/-- Helper: Python `round(19.995 * 100) = round(1999.5)` is 2000
(round half to even). -/
theorem pyRound_19995 : pyRound ((19995 : ℚ)/1000 * 100) = 2000 := by
  norm_num [pyRound]

/-- Helper: Python `int(12.346 * 100) = int(1234.6)` is 1234 (truncation). -/
theorem pyInt_12346 : pyInt ((12346 : ℚ)/1000 * 100) = 1234 := by
  norm_num [pyInt]

/-- Helper: Python `round(12.346 * 100) = round(1234.6)` is 1235. -/
theorem pyRound_12346 : pyRound ((12346 : ℚ)/1000 * 100) = 1235 := by
  norm_num [pyRound]

/-- Helper: sum exactly 100 means the milestone call is built and executed. -/
theorem add_project_milestones_ok
    (execute_contract_call : TxParams → Except TrackerError Dict)
    (project_id : ℤ) (milestones : List Milestone)
    (h : (milestones.map Milestone.funding_percentage).sum = 100) :
    add_project_milestones execute_contract_call project_id milestones =
      ([milestonesTx project_id milestones],
       execute_contract_call (milestonesTx project_id milestones)) := by
  simp [add_project_milestones, h]

/-- Helper: sum different from 100 means failure with no gateway call. -/
theorem add_project_milestones_err
    (execute_contract_call : TxParams → Except TrackerError Dict)
    (project_id : ℤ) (milestones : List Milestone)
    (h : (milestones.map Milestone.funding_percentage).sum ≠ 100) :
    add_project_milestones execute_contract_call project_id milestones =
      ([], Except.error TrackerError.InvalidMilestoneAllocation) := by
  simp [add_project_milestones, h]

/-- C2: for every milestone list whose `funding_percentage` values sum to
exactly 100, `add_project_milestones` builds the call and executes it; for
every list whose sum differs from 100 by any amount, it fails with
`InvalidMilestoneAllocation` before any gateway call.  The comparison is the
exact `total_percentage != 100`, with no floating tolerance. -/
theorem C2_milestone_sum_exact
    (execute_contract_call : TxParams → Except TrackerError Dict)
    (project_id : ℤ) (milestones : List Milestone) :
    ((milestones.map Milestone.funding_percentage).sum = 100 →
      add_project_milestones execute_contract_call project_id milestones =
        ([milestonesTx project_id milestones],
         execute_contract_call (milestonesTx project_id milestones))) ∧
    ((milestones.map Milestone.funding_percentage).sum ≠ 100 →
      add_project_milestones execute_contract_call project_id milestones =
        ([], Except.error TrackerError.InvalidMilestoneAllocation)) := by
  exact ⟨add_project_milestones_ok execute_contract_call project_id milestones,
         add_project_milestones_err execute_contract_call project_id milestones⟩

/-- Witness for C2: milestones 40+60 build and execute; 40+50 fail with
`InvalidMilestoneAllocation`. -/
theorem C2_witness :
    (([msA, msB].map Milestone.funding_percentage).sum = 100 ∧
      add_project_milestones exec0 1 [msA, msB] =
        ([milestonesTx 1 [msA, msB]], exec0 (milestonesTx 1 [msA, msB]))) ∧
    (([msA, msB50].map Milestone.funding_percentage).sum ≠ 100 ∧
      add_project_milestones exec0 1 [msA, msB50] =
        ([], Except.error TrackerError.InvalidMilestoneAllocation)) := by
  have h1 : ([msA, msB].map Milestone.funding_percentage).sum = 100 := by
    norm_num [msA, msB]
  have h2 : ([msA, msB50].map Milestone.funding_percentage).sum ≠ 100 := by
    norm_num [msA, msB50]
  exact ⟨⟨h1, (C2_milestone_sum_exact exec0 1 [msA, msB]).1 h1⟩,
         ⟨h2, (C2_milestone_sum_exact exec0 1 [msA, msB50]).2 h2⟩⟩

/-- C9: the milestone list with percentages 33.5, 33.5, 33.0 sums to exactly
100 so `add_project_milestones` accepts it and executes the call, yet the
integer `funding_percentage` values actually placed in the call's arguments
are 33, 33, 33 (each converted by truncation after the sum check), summing to
99, strictly less than 100. -/
theorem C9_truncation_loses_percentage :
    (([msP1, msP2, msP3].map Milestone.funding_percentage).sum = 100) ∧
    add_project_milestones exec0 7 [msP1, msP2, msP3] =
      ([milestonesTx 7 [msP1, msP2, msP3]],
       exec0 (milestonesTx 7 [msP1, msP2, msP3])) ∧
    milestone_data [msP1, msP2, msP3] =
      [Value.dict [("description", Value.str "phase1"),
                   ("funding_percentage", Value.int 33)],
       Value.dict [("description", Value.str "phase2"),
                   ("funding_percentage", Value.int 33)],
       Value.dict [("description", Value.str "phase3"),
                   ("funding_percentage", Value.int 33)]] ∧
    ([msP1, msP2, msP3].map
      (fun m => pyInt m.funding_percentage)).sum < 100 := by
  have hsum : ([msP1, msP2, msP3].map Milestone.funding_percentage).sum =
      100 := by
    norm_num [msP1, msP2, msP3]
  refine ⟨hsum, add_project_milestones_ok exec0 7 _ hsum, ?_, ?_⟩
  · simp [milestone_data, msP1, msP2, msP3, pyInt_67_half, pyInt_33]
  · simp [msP1, msP2, msP3, pyInt_67_half, pyInt_33]

/-- C4: creating the "Amazon Rainforest Restoration" project with target
funding 500000.00 and two proposed validators whose lookups both report
reputation score 80 produces exactly one contract request, with method
`create-conservation-project` and positional arguments
[name, description, 50000000, [validator1, validator2]] in that order. -/
theorem C4_creation_scenario :
    create_conservation_project reg80 exec0 projectAmazon
        ["validator1", "validator2"] =
      ([{ method := "create-conservation-project",
          args := [Value.str "Amazon Rainforest Restoration",
                   Value.str "Restore degraded rainforest",
                   Value.int 50000000,
                   Value.list [Value.str "validator1",
                               Value.str "validator2"]] }],
       Except.ok []) := by
  have hv : validate_validators reg80 ["validator1", "validator2"] =
      Except.ok ["validator1", "validator2"] := by
    rw [validate_validators_ok reg80 _ (by rw [reg80_filter]; decide),
      reg80_filter]
  simp [create_conservation_project, hv, createTx, projectAmazon, exec0,
    pyInt_50000000]

/-- C5 counterexample: for target funding 19.995 the code places the
truncated value 1999 in the contract arguments, while `round(19.995 * 100)`
is 2000, so the argument does not equal `round(targetFunding * 100)`. -/
theorem C5_counterexample :
    create_conservation_project reg80 exec0 project19995
        ["validator1", "validator2"] =
      ([{ method := "create-conservation-project",
          args := [Value.str "P", Value.str "D", Value.int 1999,
                   Value.list [Value.str "validator1",
                               Value.str "validator2"]] }],
       Except.ok []) ∧
    pyRound (project19995.target_funding * 100) = 2000 ∧
    (1999 : ℤ) ≠ 2000 := by
  have hv : validate_validators reg80 ["validator1", "validator2"] =
      Except.ok ["validator1", "validator2"] := by
    rw [validate_validators_ok reg80 _ (by rw [reg80_filter]; decide),
      reg80_filter]
  refine ⟨?_, ?_, by decide⟩
  · simp [create_conservation_project, hv, createTx, project19995, exec0,
      pyInt_19995]
  · simp only [project19995]
    exact pyRound_19995

/-- C5 (amended): for every project whose proposed validators pass the gate,
the target-funding argument placed in the `create-conservation-project` call
equals `int(targetFunding * 100)`, i.e. truncation toward zero of the amount
in minor units (so 19.995 deterministically yields 1999), not banker's
rounding. -/
theorem C5_amended_truncation
    (registry : String → Option ValidatorInfo)
    (execute_contract_call : TxParams → Except TrackerError Dict)
    (project : ConservationProject) (proposed validated : List String)
    (h : validate_validators registry proposed = Except.ok validated) :
    create_conservation_project registry execute_contract_call project
        proposed =
      ([createTx project validated],
       execute_contract_call (createTx project validated)) ∧
    (createTx project validated).args[2]? =
      some (Value.int (pyInt (project.target_funding * 100))) := by
  constructor
  · simp [create_conservation_project, h]
  · rfl

/-- Witness for C5's amended theorem at the 19.995 project. -/
theorem C5_witness :
    validate_validators reg80 ["validator1", "validator2"] =
      Except.ok ["validator1", "validator2"] ∧
    (createTx project19995 ["validator1", "validator2"]).args[2]? =
      some (Value.int (pyInt (project19995.target_funding * 100))) := by
  have hv : validate_validators reg80 ["validator1", "validator2"] =
      Except.ok ["validator1", "validator2"] := by
    rw [validate_validators_ok reg80 _ (by rw [reg80_filter]; decide),
      reg80_filter]
  exact ⟨hv, (C5_amended_truncation reg80 exec0 project19995
    ["validator1", "validator2"] ["validator1", "validator2"] hv).2⟩

/-! Facade pipeline claims. -/

/-- C8 counterexample: the claim's `round(value * 100)` scaling fails at
metric value 12.346: the code places the truncated value 1234 in the
`add-impact-metrics` arguments, while `round(12.346 * 100) = round(1234.6)`
is 1235. -/
theorem C8_counterexample :
    validate_project_impact getDetails2 collectAll exec0 42 [metricCarbon] =
      ([{ method := "add-impact-metrics",
          args := [Value.int 42,
            Value.list [Value.dict
              [("metric_name", Value.str "carbon_offset"),
               ("value", Value.int 1234),
               ("validator_approvals", Value.list
                 [Value.str "validator1", Value.str "validator2"])]]] }],
       Except.ok []) ∧
    pyRound (metricCarbon.value * 100) = 1235 ∧
    (1234 : ℤ) ≠ 1235 := by
  refine ⟨?_, ?_, by decide⟩
  · simp [validate_project_impact, getDetails2, details2, impactTx,
      validated_metric, collectAll, metricCarbon, exec0, pyInt_12346]
  · simp only [metricCarbon]
    exact pyRound_12346

/-- C8 (amended): for every project id and metric list,
`validate_project_impact` first fetches the project details from the gateway;
with the validator set obtained there (default `[]`), it collects approvals
for each metric in input order, and executes exactly one contract call with
method `add-impact-metrics` and arguments [projectId, list of {metric name,
`int(value * 100)` — truncation toward zero, not rounding — collected
approvals}]. -/
theorem C8_impact_pipeline_truncation
    (get_project_details : ℤ → Except TrackerError ProjectDetails)
    (collect_validator_approvals :
      List String → ℤ → ImpactMetric → List String)
    (execute_contract_call : TxParams → Except TrackerError Dict)
    (project_id : ℤ) (impact_metrics : List ImpactMetric)
    (project_details : ProjectDetails)
    (h : get_project_details project_id = Except.ok project_details) :
    validate_project_impact get_project_details collect_validator_approvals
        execute_contract_call project_id impact_metrics =
      ([impactTx collect_validator_approvals
          (project_details.validators.getD []) project_id impact_metrics],
       execute_contract_call (impactTx collect_validator_approvals
          (project_details.validators.getD []) project_id impact_metrics)) ∧
    (impactTx collect_validator_approvals (project_details.validators.getD [])
        project_id impact_metrics).method = "add-impact-metrics" ∧
    (impactTx collect_validator_approvals (project_details.validators.getD [])
        project_id impact_metrics).args =
      [Value.int project_id,
       Value.list (impact_metrics.map (fun metric => Value.dict
         [("metric_name", Value.str metric.metric_name),
          ("value", Value.int (pyInt (metric.value * 100))),
          ("validator_approvals", Value.list
            ((collect_validator_approvals (project_details.validators.getD [])
              project_id metric).map Value.str))]))] := by
  refine ⟨?_, rfl, rfl⟩
  simp [validate_project_impact, h]

/-- Witness for C8's amended theorem at a concrete project, metric and
validator set. -/
theorem C8_truncation_witness :
    getDetails2 42 = Except.ok details2 ∧
    validate_project_impact getDetails2 collectAll exec0 42 [metricTrees] =
      ([impactTx collectAll (details2.validators.getD []) 42 [metricTrees]],
       exec0 (impactTx collectAll (details2.validators.getD []) 42
         [metricTrees])) :=
  ⟨rfl, (C8_impact_pipeline_truncation getDetails2 collectAll exec0 42
    [metricTrees] details2 rfl).1⟩

/-- C6: every facade operation propagates every stage's error to the caller
unchanged (the `except` blocks log and re-raise): a validator-gate error
aborts `create_conservation_project` with that error; when the gate passes,
the result is exactly the gateway's answer for the built call (so a gateway
error surfaces as that error); the same holds for `add_project_milestones`
around its local sum check, and for `validate_project_impact` around the
details fetch.  No operation replaces a failure by a null or ok result. -/
theorem C6_errors_propagate :
    (∀ (registry : String → Option ValidatorInfo)
       (execute_contract_call : TxParams → Except TrackerError Dict)
       (project : ConservationProject) (proposed : List String)
       (e : TrackerError),
       validate_validators registry proposed = Except.error e →
       create_conservation_project registry execute_contract_call project
         proposed = ([], Except.error e)) ∧
    (∀ (registry : String → Option ValidatorInfo)
       (execute_contract_call : TxParams → Except TrackerError Dict)
       (project : ConservationProject) (proposed validated : List String),
       validate_validators registry proposed = Except.ok validated →
       (create_conservation_project registry execute_contract_call project
         proposed).2 = execute_contract_call (createTx project validated)) ∧
    (∀ (execute_contract_call : TxParams → Except TrackerError Dict)
       (project_id : ℤ) (milestones : List Milestone),
       (milestones.map Milestone.funding_percentage).sum ≠ 100 →
       add_project_milestones execute_contract_call project_id milestones =
         ([], Except.error TrackerError.InvalidMilestoneAllocation)) ∧
    (∀ (execute_contract_call : TxParams → Except TrackerError Dict)
       (project_id : ℤ) (milestones : List Milestone),
       (milestones.map Milestone.funding_percentage).sum = 100 →
       (add_project_milestones execute_contract_call project_id
         milestones).2 =
         execute_contract_call (milestonesTx project_id milestones)) ∧
    (∀ (get_project_details : ℤ → Except TrackerError ProjectDetails)
       (collect_validator_approvals :
         List String → ℤ → ImpactMetric → List String)
       (execute_contract_call : TxParams → Except TrackerError Dict)
       (project_id : ℤ) (impact_metrics : List ImpactMetric)
       (e : TrackerError),
       get_project_details project_id = Except.error e →
       validate_project_impact get_project_details
         collect_validator_approvals execute_contract_call project_id
         impact_metrics = ([], Except.error e)) ∧
    (∀ (get_project_details : ℤ → Except TrackerError ProjectDetails)
       (collect_validator_approvals :
         List String → ℤ → ImpactMetric → List String)
       (execute_contract_call : TxParams → Except TrackerError Dict)
       (project_id : ℤ) (impact_metrics : List ImpactMetric)
       (project_details : ProjectDetails),
       get_project_details project_id = Except.ok project_details →
       (validate_project_impact get_project_details
         collect_validator_approvals execute_contract_call project_id
         impact_metrics).2 =
         execute_contract_call (impactTx collect_validator_approvals
           (project_details.validators.getD []) project_id
           impact_metrics)) := by
  refine ⟨?_, ?_, ?_, ?_, ?_, ?_⟩
  · intro registry execute_contract_call project proposed e h
    simp [create_conservation_project, h]
  · intro registry execute_contract_call project proposed validated h
    simp [create_conservation_project, h]
  · intro execute_contract_call project_id milestones h
    exact add_project_milestones_err execute_contract_call project_id
      milestones h
  · intro execute_contract_call project_id milestones h
    rw [add_project_milestones_ok execute_contract_call project_id
      milestones h]
  · intro get_project_details collect_validator_approvals
      execute_contract_call project_id impact_metrics e h
    simp [validate_project_impact, h]
  · intro get_project_details collect_validator_approvals
      execute_contract_call project_id impact_metrics project_details h
    simp [validate_project_impact, h]

/-- Witness for C6: a gate failure propagates out of
`create_conservation_project` even when the gateway would fail too, and a
gateway transport error propagates out of `add_project_milestones`. -/
theorem C6_witness :
    validate_validators registry0 ["validator1"] =
      Except.error TrackerError.InsufficientValidators ∧
    create_conservation_project registry0 execFail projectAmazon
        ["validator1"] =
      ([], Except.error TrackerError.InsufficientValidators) ∧
    ([msA, msB].map Milestone.funding_percentage).sum = 100 ∧
    (add_project_milestones execFail 1 [msA, msB]).2 =
      Except.error (TrackerError.GatewayError "transport failure") := by
  have hv : validate_validators registry0 ["validator1"] =
      Except.error TrackerError.InsufficientValidators := by
    apply validate_validators_err
    simp [qualifies, registry0]
  have h100 : ([msA, msB].map Milestone.funding_percentage).sum = 100 := by
    norm_num [msA, msB]
  refine ⟨hv, C6_errors_propagate.1 registry0 execFail projectAmazon
    ["validator1"] TrackerError.InsufficientValidators hv, h100, ?_⟩
  exact (C6_errors_propagate.2.2.2.1 execFail 1 [msA, msB] h100).trans rfl

/-- C7: whenever `create_conservation_project` fails with
`InsufficientValidators` or `add_project_milestones` fails with
`InvalidMilestoneAllocation`, the failure is detected before any gateway
call: the trace of `execute_contract_call` invocations for that run is
empty. -/
theorem C7_local_failures_before_gateway :
    (∀ (registry : String → Option ValidatorInfo)
       (execute_contract_call : TxParams → Except TrackerError Dict)
       (project : ConservationProject) (proposed : List String),
       validate_validators registry proposed =
         Except.error TrackerError.InsufficientValidators →
       (create_conservation_project registry execute_contract_call project
         proposed).1 = []) ∧
    (∀ (execute_contract_call : TxParams → Except TrackerError Dict)
       (project_id : ℤ) (milestones : List Milestone),
       (milestones.map Milestone.funding_percentage).sum ≠ 100 →
       (add_project_milestones execute_contract_call project_id
         milestones).1 = []) := by
  constructor
  · intro registry execute_contract_call project proposed h
    simp [create_conservation_project, h]
  · intro execute_contract_call project_id milestones h
    rw [add_project_milestones_err execute_contract_call project_id
      milestones h]

/-- Witness for C7 at an unqualified candidate list and a 40+50 milestone
list, with a gateway that would fail loudly if it were ever called. -/
theorem C7_witness :
    validate_validators registry0 [] =
      Except.error TrackerError.InsufficientValidators ∧
    (create_conservation_project registry0 execFail projectAmazon []).1 =
      [] ∧
    ([msA, msB50].map Milestone.funding_percentage).sum ≠ 100 ∧
    (add_project_milestones execFail 1 [msA, msB50]).1 = [] := by
  have hv : validate_validators registry0 [] =
      Except.error TrackerError.InsufficientValidators := by
    apply validate_validators_err
    simp
  have hne : ([msA, msB50].map Milestone.funding_percentage).sum ≠ 100 := by
    norm_num [msA, msB50]
  exact ⟨hv, C7_local_failures_before_gateway.1 registry0 execFail
    projectAmazon [] hv, hne,
    C7_local_failures_before_gateway.2 execFail 1 [msA, msB50] hne⟩

end EnvBlockchain
